import Mathlib

/-!
Verification of the stockalizer-time-trigger news-sentiment pipeline.

The Python sources `news-analysis/__init__.py` (dual-model variant) and
`news-analysis-vader/__init__.py` (lexicon-only variant) are embedded
shallowly:

* Python strings are `List Char` (`PyStr`); `str.split()`, `str.split(" ")`,
  `str.replace(c, "")` and `str.lower()` are embedded as executable
  functions with Python's exact semantics.
* Sentiment scores are `Rat` (the claims are about exact constants and
  arithmetic means, not float rounding).
* Composed timestamps are `Int` seconds; the external pandas datetime
  parsing (`pd.to_datetime` on a date string plus a time string) is an
  abstract parameter `toTs : PyStr → PyStr → Int` of the pipeline, as is
  the opaque vader lexicon scorer and the opaque neural model.
* Python exceptions are `Except PyError`; the distinct raise sites of the
  source (`AttributeError` from `row.a.get_text()` / `row.td.text` on a
  missing tag, `UnboundLocalError` from reading the loop variable `date`
  before assignment, `IndexError` from `date_data[0]` on an empty list,
  `KeyError` from `word_index["<PAD>"]`) get distinct constructors.
-/

/-- Python `str` as a list of characters. -/
abbrev PyStr := List Char

/-- Python whitespace characters recognised by `str.split()` (ASCII range). -/
def pyIsSpace (c : Char) : Bool :=
  c = ' ' || c = '\t' || c = '\n' || c = '\r' || c = '\x0b' || c = '\x0c'

/-- Accumulator worker for `pySplitWs`; `cur` holds the current token reversed. -/
def pySplitWsAux : PyStr → PyStr → List PyStr
  | [], cur => if cur.isEmpty then [] else [cur.reverse]
  | c :: cs, cur =>
    if pyIsSpace c then
      if cur.isEmpty then pySplitWsAux cs []
      else cur.reverse :: pySplitWsAux cs []
    else pySplitWsAux cs (c :: cur)

/-- Python `str.split()` with no argument: split on runs of whitespace,
never producing empty tokens. -/
def pySplitWs (s : PyStr) : List PyStr :=
  pySplitWsAux s []

/-- Python `str.split(sep)` for a one-character separator: split at every
single occurrence of `sep`, keeping empty tokens (`"".split(" ") == [""]`,
`"a  b".split(" ") == ["a", "", "b"]`). -/
def pySplitOn (sep : Char) : PyStr → List PyStr
  | [] => [[]]
  | c :: cs =>
    if c = sep then [] :: pySplitOn sep cs
    else
      match pySplitOn sep cs with
      | [] => [[c]]
      | t :: ts => (c :: t) :: ts

/-- Python `s.replace(c, "")` for a one-character needle: remove every
occurrence of `c`. -/
def pyRemoveChar (c : Char) (s : PyStr) : PyStr :=
  s.filter (fun d => d ≠ c)

/-- The normalisation in `prepare_news_title`:
`title.replace(".", "").replace(",", "").replace(":", "")`. -/
def pyRemoveChars (s : PyStr) : PyStr :=
  pyRemoveChar ':' (pyRemoveChar ',' (pyRemoveChar '.' s))

/-- Python `str.lower()` (ASCII letters, as in the vocabulary keys). -/
def pyLower (s : PyStr) : PyStr :=
  s.map Char.toLower

/-- The key `"<PAD>"` looked up in `word_index` by `prepare_news_title`. -/
def padKey : PyStr :=
  ['<', 'P', 'A', 'D', '>']

/-- The embedding of `encode_title` (news-analysis/__init__.py lines 63-81):
start from `encoded = [1]` and, for each word of the tokenised title, append
`word_index[word.lower()]` when the lowercased word is a key of the
vocabulary and the unknown-token index `2` otherwise.  The vocabulary
dictionary is the abstract lookup `word_index : PyStr → Option Nat`. -/
def encode_title (word_index : PyStr → Option Nat) (title : List PyStr) : List Nat :=
  title.foldl
    (fun encoded word =>
      match word_index (pyLower word) with
      | some idx => encoded ++ [idx]
      | none => encoded ++ [2])
    [1]

/-- The embedding of
`tf.keras.preprocessing.sequence.pad_sequences([seq], value, padding="post", maxlen)`:
keras pads on the right (the explicit `padding="post"`) but, the call not
setting `truncating`, truncates with the keras default `truncating="pre"`,
i.e. a sequence longer than `maxlen` keeps its LAST `maxlen` elements. -/
def pad_sequences (value : Nat) (maxlen : Nat) (seq : List Nat) : List Nat :=
  if maxlen ≤ seq.length then seq.drop (seq.length - maxlen)
  else seq ++ List.replicate (maxlen - seq.length) value

/-- The embedding of `prepare_news_title` (news-analysis/__init__.py lines
84-103): strip `.`, `,`, `:`, split on whitespace, encode, then pad or
truncate to length 100 with `word_index["<PAD>"]` as the pad value.  The
dictionary access `word_index["<PAD>"]` raises `KeyError` when the key is
missing, embedded as `none`. -/
def prepare_news_title (word_index : PyStr → Option Nat) (title : PyStr) :
    Option (List Nat) :=
  let tokens := pySplitWs (pyRemoveChars title)
  let encoded_title := encode_title word_index tokens
  (word_index padKey).map (fun padv => pad_sequences padv 100 encoded_title)

/-- A `<tr>` row of the finviz news table as seen by `parse_data`:
`row.a` is the first anchor (`none` when the row has no `<a>` tag, in which
case `row.a.get_text()` raises `AttributeError`), `row.td` likewise the
first `<td>` cell, carrying its text. -/
structure FinvizRow where
  anchorText : Option PyStr
  tdText : Option PyStr
deriving DecidableEq, Repr

/-- One parsed headline record `[ticker, date, time, title]` appended to
`parsed_data` by `parse_data`. -/
structure Record where
  ticker : PyStr
  date : PyStr
  time : PyStr
  title : PyStr
deriving DecidableEq, Repr

/-- The Python exceptions the embedded pipeline can raise. -/
inductive PyError where
  | attributeError
  | unboundLocalError
  | indexError
  | keyError
deriving DecidableEq, Repr

/-- The loop body of `parse_data` (news-analysis/__init__.py lines 138-151),
embedded recursively with the loop-carried local variable `date` made
explicit as `Option PyStr` (`none` = not yet assigned; reading it then is
Python's `UnboundLocalError`).  Each row: `title = row.a.get_text()`
(raises on a missing anchor), `date_data = row.td.text.split(" ")` (raises
on a missing cell); one token means time-only (date carries over), two or
more tokens mean `date = date_data[0]`, `time = date_data[1]`; every
processed row appends `[ticker, date, time, title]`.  An exception aborts
the whole function, discarding all records. -/
def parse_go (ticker : PyStr) (date : Option PyStr) :
    List FinvizRow → Except PyError (List Record)
  | [] => Except.ok []
  | row :: rest =>
    match row.anchorText with
    | none => Except.error PyError.attributeError
    | some title =>
      match row.tdText with
      | none => Except.error PyError.attributeError
      | some td =>
        match pySplitOn ' ' td with
        | [] => Except.error PyError.indexError
        | [tm] =>
          match date with
          | none => Except.error PyError.unboundLocalError
          | some d =>
            (parse_go ticker (some d) rest).map
              (fun recs => ⟨ticker, d, tm, title⟩ :: recs)
        | d :: tm :: _ =>
          (parse_go ticker (some d) rest).map
            (fun recs => ⟨ticker, d, tm, title⟩ :: recs)

/-- The embedding of `parse_data`: run the row loop with `date` unassigned. -/
def parse_data (rows : List FinvizRow) (ticker : PyStr) :
    Except PyError (List Record) :=
  parse_go ticker none rows

/-- The date token a row supplies: the first token of its timestamp cell
when the cell splits into two or more tokens, `none` otherwise. -/
def suppliedDate (row : FinvizRow) : Option PyStr :=
  match row.tdText with
  | none => none
  | some td =>
    match pySplitOn ' ' td with
    | [] => none
    | [_] => none
    | d :: _ :: _ => some d

/-- A row is time-only when its timestamp cell is present and splits into
exactly one token. -/
def timeOnly (row : FinvizRow) : Bool :=
  match row.tdText with
  | none => false
  | some td => (pySplitOn ' ' td).length == 1

/-- A row is well-formed when it has both a title anchor and a timestamp
cell. -/
def wellFormedRow (row : FinvizRow) : Bool :=
  row.anchorText.isSome && row.tdText.isSome

/-- The last date token supplied by a row of `rows`, starting from a carry
`d0` (the value of the loop variable `date` before those rows). -/
def lastDateFrom (d0 : Option PyStr) (rows : List FinvizRow) : Option PyStr :=
  rows.foldl
    (fun acc r =>
      match suppliedDate r with
      | some d => some d
      | none => acc)
    d0

/-- The date token of the nearest preceding date-supplying row of `rows`. -/
def lastSuppliedDate (rows : List FinvizRow) : Option PyStr :=
  lastDateFrom none rows

/-- One fully scored dataframe row of the dual-model variant after the
column assignments of `predict_for_ticker` (news-analysis/__init__.py lines
170-188): the parsed record plus `encoded_title`, `compound_model` (neural
score), `compound` (vader score) and the combined date+time timestamp that
overwrites the `date` column. -/
structure Scored where
  record : Record
  encoded_title : List Nat
  compound_model : Rat
  compound : Rat
  ts : Int
deriving DecidableEq, Repr

/-- Scoring of one parsed record by the dual-model variant, with the pad
value already extracted from the vocabulary: encode the title, apply the
opaque neural model `modelP` to the encoding, apply the opaque vader scorer
to the raw title, and compose the timestamp with the abstract datetime
parser `toTs`. -/
def scoredOf (toTs : PyStr → PyStr → Int) (vader : PyStr → Rat)
    (modelP : List Nat → Rat) (word_index : PyStr → Option Nat) (padv : Nat)
    (r : Record) : Scored :=
  { record := r
    encoded_title := pad_sequences padv 100
      (encode_title word_index (pySplitWs (pyRemoveChars r.title)))
    compound_model := modelP (pad_sequences padv 100
      (encode_title word_index (pySplitWs (pyRemoveChars r.title))))
    compound := vader r.title
    ts := toTs r.date r.time }

/-- Scoring of one parsed record, propagating the `KeyError` of a
vocabulary that lacks `"<PAD>"`. -/
def score_row (toTs : PyStr → PyStr → Int) (vader : PyStr → Rat)
    (modelP : List Nat → Rat) (word_index : PyStr → Option Nat) (r : Record) :
    Except PyError Scored :=
  match prepare_news_title word_index r.title with
  | none => Except.error PyError.keyError
  | some e =>
    Except.ok
      { record := r
        encoded_title := e
        compound_model := modelP e
        compound := vader r.title
        ts := toTs r.date r.time }

/-- The column-building phase of the dual-model `predict_for_ticker`
applied to every parsed record in order; a raised exception aborts the
whole column construction. -/
def score_rows (toTs : PyStr → PyStr → Int) (vader : PyStr → Rat)
    (modelP : List Nat → Rat) (word_index : PyStr → Option Nat) :
    List Record → Except PyError (List Scored)
  | [] => Except.ok []
  | r :: rs =>
    match score_row toTs vader modelP word_index r with
    | Except.error e => Except.error e
    | Except.ok s =>
      match score_rows toTs vader modelP word_index rs with
      | Except.error e => Except.error e
      | Except.ok ss => Except.ok (s :: ss)

/-- The boolean date-range mask of `predict_for_ticker`
(news-analysis/__init__.py lines 190-193):
`(df["date"] >= start) & (df["date"] <= end)` — inclusive on BOTH bounds. -/
def window_mask (start_date end_date : Int) (x : Scored) : Bool :=
  decide (start_date ≤ x.ts) && decide (x.ts ≤ end_date)

/-- The row filter `df.loc[mask]` of `predict_for_ticker` (line 194). -/
def window_filter (start_date end_date : Int) (scored : List Scored) :
    List Scored :=
  scored.filter (window_mask start_date end_date)

/-- The aggregation tail of the dual-model `predict_for_ticker` (lines
194-216): count the retained rows; zero rows short-circuits to the sentinel
triple `(0, 0, 0.5)` (with a logged warning, not an exception); otherwise
return the count and the arithmetic means of the `compound` and
`compound_model` columns. -/
def aggregate (start_date end_date : Int) (scored : List Scored) :
    Nat × Rat × Rat :=
  let df := window_filter start_date end_date scored
  let rows := df.length
  if rows = 0 then (0, 0, 1 / 2)
  else
    (rows, (df.map Scored.compound).sum / (rows : Rat),
      (df.map Scored.compound_model).sum / (rows : Rat))

/-- The embedding of the dual-model `predict_for_ticker`
(news-analysis/__init__.py lines 154-216), with the already fetched news
table passed in place of the network call: parse the rows, build the score
columns, filter to the window and aggregate. -/
def predict_for_ticker (toTs : PyStr → PyStr → Int) (vader : PyStr → Rat)
    (modelP : List Nat → Rat) (word_index : PyStr → Option Nat)
    (news_table : List FinvizRow) (ticker : PyStr)
    (start_date end_date : Int) : Except PyError (Nat × Rat × Rat) :=
  match parse_data news_table ticker with
  | Except.error e => Except.error e
  | Except.ok parsed =>
    match score_rows toTs vader modelP word_index parsed with
    | Except.error e => Except.error e
    | Except.ok scored => Except.ok (aggregate start_date end_date scored)

/-- One scored dataframe row of the lexicon-only variant
(news-analysis-vader/__init__.py lines 86-98): no encoding and no model
column, only `compound` and the combined timestamp. -/
structure VScored where
  record : Record
  compound : Rat
  ts : Int
deriving DecidableEq, Repr

/-- The loop body of the lexicon-only variant's `parse_data`
(news-analysis-vader/__init__.py lines 54-67) — textually identical to the
dual-model variant's loop, embedded separately to state their equivalence. -/
def vparse_go (ticker : PyStr) (date : Option PyStr) :
    List FinvizRow → Except PyError (List Record)
  | [] => Except.ok []
  | row :: rest =>
    match row.anchorText with
    | none => Except.error PyError.attributeError
    | some title =>
      match row.tdText with
      | none => Except.error PyError.attributeError
      | some td =>
        match pySplitOn ' ' td with
        | [] => Except.error PyError.indexError
        | [tm] =>
          match date with
          | none => Except.error PyError.unboundLocalError
          | some d =>
            (vparse_go ticker (some d) rest).map
              (fun recs => ⟨ticker, d, tm, title⟩ :: recs)
        | d :: tm :: _ =>
          (vparse_go ticker (some d) rest).map
            (fun recs => ⟨ticker, d, tm, title⟩ :: recs)

/-- The lexicon-only variant's `parse_data`. -/
def vparse_data (rows : List FinvizRow) (ticker : PyStr) :
    Except PyError (List Record) :=
  vparse_go ticker none rows

/-- Scoring of one parsed record by the lexicon-only variant: vader score
and composed timestamp only; no failure site. -/
def vscore_row (toTs : PyStr → PyStr → Int) (vader : PyStr → Rat)
    (r : Record) : VScored :=
  { record := r, compound := vader r.title, ts := toTs r.date r.time }

/-- The column-building phase of the lexicon-only `predict_for_ticker`. -/
def vscore_rows (toTs : PyStr → PyStr → Int) (vader : PyStr → Rat)
    (parsed : List Record) : List VScored :=
  parsed.map (vscore_row toTs vader)

/-- The lexicon-only variant's date-range mask
(news-analysis-vader/__init__.py lines 100-103), inclusive on both bounds. -/
def vwindow_mask (start_date end_date : Int) (x : VScored) : Bool :=
  decide (start_date ≤ x.ts) && decide (x.ts ≤ end_date)

/-- The lexicon-only variant's row filter `df.loc[mask]` (line 104). -/
def vwindow_filter (start_date end_date : Int) (scored : List VScored) :
    List VScored :=
  scored.filter (vwindow_mask start_date end_date)

/-- The aggregation tail of the lexicon-only `predict_for_ticker` (lines
104-121): zero retained rows short-circuits to `(0, 0)`; otherwise the
count and the mean of `compound`. -/
def vaggregate (start_date end_date : Int) (scored : List VScored) :
    Nat × Rat :=
  let df := vwindow_filter start_date end_date scored
  let rows := df.length
  if rows = 0 then (0, 0)
  else (rows, (df.map VScored.compound).sum / (rows : Rat))

/-- The embedding of the lexicon-only `predict_for_ticker`
(news-analysis-vader/__init__.py lines 70-121). -/
def vpredict_for_ticker (toTs : PyStr → PyStr → Int) (vader : PyStr → Rat)
    (news_table : List FinvizRow) (ticker : PyStr)
    (start_date end_date : Int) : Except PyError (Nat × Rat) :=
  match vparse_data news_table ticker with
  | Except.error e => Except.error e
  | Except.ok parsed =>
    Except.ok (vaggregate start_date end_date (vscore_rows toTs vader parsed))

/-- The report dictionary built by `predict_automatically`
(news-analysis/__init__.py lines 251-259). -/
structure Report where
  ticker : PyStr
  startTime : PyStr
  endTime : PyStr
  sentimentScoreVader : Rat
  sentimentScoreModel : Rat
  newsCount : Nat
  createdBy : PyStr
  createdAt : PyStr
deriving DecidableEq, Repr

/-- The embedding of the dual-model `predict_automatically`
(news-analysis/__init__.py lines 219-261).  Wall-clock time enters as the
parameter `now : Int` (whole seconds: `datetime.now().strftime` followed by
`strptime` on the same format string round-trips exactly at second
resolution, so `current` is `now` itself) and `strftime("%Y-%m-%d %H:%M:%S")`
as the abstract formatter `fmt : Int → PyStr`.  `timedelta(hours=h)`
subtracts `h * 3600` seconds.  `current_time` is formatted once and reused
verbatim for `timeframe.endTime` and `createdAt`. -/
def predict_automatically (fmt : Int → PyStr) (now : Int)
    (toTs : PyStr → PyStr → Int) (vader : PyStr → Rat)
    (modelP : List Nat → Rat) (word_index : PyStr → Option Nat)
    (news_table : List FinvizRow) (ticker : PyStr) (hours_till_now : Int) :
    Except PyError Report :=
  let current_time := fmt now
  let current : Int := now
  let start_time : Int := current - hours_till_now * 3600
  match predict_for_ticker toTs vader modelP word_index news_table ticker
      start_time current with
  | Except.error e => Except.error e
  | Except.ok (rows, sentiment_score, mean_sentiment_model) =>
    Except.ok
      { ticker := ticker
        startTime := fmt start_time
        endTime := current_time
        sentimentScoreVader := sentiment_score
        sentimentScoreModel := mean_sentiment_model
        newsCount := rows
        createdBy := "az-function(news-analysis)".toList
        createdAt := current_time }

/-- The projection from a dual-model scored row to a lexicon-only scored
row: forget the encoding and the model score, keep record, vader score and
timestamp. -/
def dropModel (x : Scored) : VScored :=
  { record := x.record, compound := x.compound, ts := x.ts }

deriving instance DecidableEq for Except

/-- Concrete fixture: the ticker of the spec's worked scenario. -/
def exTicker : PyStr :=
  ['A', 'M', 'Z', 'N']

/-- Concrete fixture: a date-supplying row of the spec's worked scenario. -/
def exDateRow : FinvizRow :=
  ⟨some "Stock surges on earnings".toList, some "01/15/24 09:30AM".toList⟩

/-- Concrete fixture: a time-only row of the spec's worked scenario. -/
def exTimeRow : FinvizRow :=
  ⟨some "Analysts raise price target".toList, some "09:45AM".toList⟩

/-- Concrete fixture: a malformed row lacking a title anchor. -/
def exBadRow : FinvizRow :=
  ⟨none, some "01/16/24 10:00AM".toList⟩

/-- Concrete fixture: a vocabulary holding only the `"<PAD>"` sentinel. -/
def exWordIndex : PyStr → Option Nat :=
  fun w => if w = padKey then some 0 else none

/-- Concrete fixture: an abstract datetime composition sending every
date+time pair to second 15. -/
def exToTs : PyStr → PyStr → Int :=
  fun _ _ => 15

/-- Concrete fixture: a deterministic stand-in lexicon scorer. -/
def exVader : PyStr → Rat :=
  fun t => (t.length : Rat) / 100

/-- Concrete fixture: a deterministic stand-in neural scorer. -/
def exModel : List Nat → Rat :=
  fun l => (l.headD 0 : Rat) / 4

/-- Concrete fixture: a title of one hundred whitespace-separated tokens,
whose encoding (length 101) exceeds `maxSequenceLength`. -/
def longTitle : PyStr :=
  List.flatten (List.replicate 100 ['x', ' '])

/-- Concrete fixture: an injective-on-the-relevant-inputs stand-in for
`strftime("%Y-%m-%d %H:%M:%S")`. -/
def exFmt : Int → PyStr :=
  fun n => if n = 0 then ['z'] else ['n']

/-- Concrete fixture: the record `parse_data` produces from `exDateRow`. -/
def exRecord1 : Record :=
  ⟨exTicker, "01/15/24".toList, "09:30AM".toList,
    "Stock surges on earnings".toList⟩

/-- Concrete fixture: the record `parse_data` produces from `exTimeRow`
after the date carry-over. -/
def exRecord2 : Record :=
  ⟨exTicker, "01/15/24".toList, "09:45AM".toList,
    "Analysts raise price target".toList⟩

/-- Concrete fixture: `exRecord1` scored under the fixture scorers. -/
def exScored1 : Scored :=
  { record := exRecord1
    encoded_title := pad_sequences 0 100
      (encode_title exWordIndex (pySplitWs (pyRemoveChars exRecord1.title)))
    compound_model := exModel (pad_sequences 0 100
      (encode_title exWordIndex (pySplitWs (pyRemoveChars exRecord1.title))))
    compound := exVader exRecord1.title
    ts := 15 }

/-- Concrete fixture: the report of a run over an empty news table at
`now = 0` with a one-hour lookback. -/
def exReport0 : Report :=
  { ticker := exTicker
    startTime := exFmt (0 - 1 * 3600)
    endTime := exFmt 0
    sentimentScoreVader := 0
    sentimentScoreModel := 1 / 2
    newsCount := 0
    createdBy := "az-function(news-analysis)".toList
    createdAt := exFmt 0 }

/-- Python `split(sep)` never yields an empty list: even the empty string
splits to `[""]`.  Hence `date_data[0]` never raises in `parse_data`. -/
theorem pySplitOn_ne_nil (sep : Char) (s : PyStr) : pySplitOn sep s ≠ [] := by
  cases s with
  | nil => simp [pySplitOn]
  | cons c cs =>
    unfold pySplitOn
    by_cases h : c = sep
    · simp [h]
    · simp only [if_neg h]
      cases pySplitOn sep cs <;> simp

/-- Unrolling of the `encode_title` accumulator loop: folding from any
already-built prefix appends one index per word. -/
theorem encode_title_go (word_index : PyStr → Option Nat) (ws : List PyStr)
    (acc : List Nat) :
    List.foldl
      (fun encoded word =>
        match word_index (pyLower word) with
        | some idx => encoded ++ [idx]
        | none => encoded ++ [2])
      acc ws
    = acc ++ ws.map
        (fun w =>
          match word_index (pyLower w) with
          | some idx => idx
          | none => 2) := by
  induction ws generalizing acc with
  | nil => simp
  | cons w ws ih =>
    cases h : word_index (pyLower w) with
    | none => simp [List.foldl_cons, h, ih]
    | some idx => simp [List.foldl_cons, h, ih]

/-- Shared sentinel lemma: when parsing and scoring succeed and the window
filter retains nothing, the dual-model pipeline returns the
`(0, 0, 0.5)` sentinel triple. -/
theorem predict_sentinel (toTs : PyStr → PyStr → Int) (vader : PyStr → Rat)
    (modelP : List Nat → Rat) (word_index : PyStr → Option Nat)
    (news_table : List FinvizRow) (ticker : PyStr)
    (start_date end_date : Int) (parsed : List Record) (scored : List Scored)
    (hp : parse_data news_table ticker = Except.ok parsed)
    (hs : score_rows toTs vader modelP word_index parsed = Except.ok scored)
    (hf : window_filter start_date end_date scored = []) :
    predict_for_ticker toTs vader modelP word_index news_table ticker
      start_date end_date = Except.ok (0, 0, 1 / 2) := by
  simp only [predict_for_ticker, hp, hs]
  simp [aggregate, hf]

/-- Shared lemma: a reversed window (`end < start`) retains nothing, since
retention requires `start ≤ ts ≤ end`. -/
theorem window_filter_nil_of_lt (start_date end_date : Int)
    (scored : List Scored) (h : end_date < start_date) :
    window_filter start_date end_date scored = [] := by
  rw [window_filter, List.filter_eq_nil_iff]
  intro x _
  simp only [window_mask, Bool.and_eq_true, decide_eq_true_eq, not_and]
  intro h1 h2
  omega

/-- C1: the dual-model window filter retains a scored headline exactly when
its composed timestamp `ts` satisfies `start ≤ ts` and `ts ≤ end` — the
window is inclusive at both bounds, so a headline timestamped precisely at
`start` or precisely at `end` is retained. -/
theorem C1_window_filter_inclusive (start_date end_date : Int)
    (scored : List Scored) (x : Scored) :
    x ∈ window_filter start_date end_date scored ↔
      x ∈ scored ∧ start_date ≤ x.ts ∧ x.ts ≤ end_date := by
  simp [window_filter, List.mem_filter, window_mask, and_assoc]

/-- C2: when no scored headline falls inside the window, the dual-model
pipeline does not raise: it returns the count `0` together with the exact
sentinel means `0` (vader) and `1/2` (model); the source only logs a
warning at this point. -/
theorem C2_empty_window_sentinel (toTs : PyStr → PyStr → Int)
    (vader : PyStr → Rat) (modelP : List Nat → Rat)
    (word_index : PyStr → Option Nat) (news_table : List FinvizRow)
    (ticker : PyStr) (start_date end_date : Int) (parsed : List Record)
    (scored : List Scored)
    (hp : parse_data news_table ticker = Except.ok parsed)
    (hs : score_rows toTs vader modelP word_index parsed = Except.ok scored)
    (hf : window_filter start_date end_date scored = []) :
    predict_for_ticker toTs vader modelP word_index news_table ticker
      start_date end_date = Except.ok (0, 0, 1 / 2) :=
  predict_sentinel toTs vader modelP word_index news_table ticker start_date
    end_date parsed scored hp hs hf

/-- C8: with a reversed window (`start > end`) the pipeline performs no
validation and raises no error: the filter retains zero records and the run
returns the same `(0, 0, 1/2)` sentinel as the empty-window case. -/
theorem C8_reversed_window (toTs : PyStr → PyStr → Int) (vader : PyStr → Rat)
    (modelP : List Nat → Rat) (word_index : PyStr → Option Nat)
    (news_table : List FinvizRow) (ticker : PyStr)
    (start_date end_date : Int) (parsed : List Record) (scored : List Scored)
    (hlt : end_date < start_date)
    (hp : parse_data news_table ticker = Except.ok parsed)
    (hs : score_rows toTs vader modelP word_index parsed = Except.ok scored) :
    window_filter start_date end_date scored = [] ∧
      predict_for_ticker toTs vader modelP word_index news_table ticker
        start_date end_date = Except.ok (0, 0, 1 / 2) := by
  have hf := window_filter_nil_of_lt start_date end_date scored hlt
  exact ⟨hf,
    predict_sentinel toTs vader modelP word_index news_table ticker
      start_date end_date parsed scored hp hs hf⟩

/-- Witness for C2 at a concrete input: one parsed, scored headline whose
timestamp 15 lies outside the window `[20, 30]`. -/
theorem C2_empty_window_sentinel_witness :
    parse_data [exDateRow] exTicker = Except.ok [exRecord1] ∧
      score_rows exToTs exVader exModel exWordIndex [exRecord1] =
        Except.ok [exScored1] ∧
      window_filter 20 30 [exScored1] = [] ∧
      predict_for_ticker exToTs exVader exModel exWordIndex [exDateRow]
        exTicker 20 30 = Except.ok (0, 0, 1 / 2) :=
  ⟨rfl, rfl, rfl,
    C2_empty_window_sentinel exToTs exVader exModel exWordIndex [exDateRow]
      exTicker 20 30 [exRecord1] [exScored1] rfl rfl rfl⟩

/-- Witness for C8 at a concrete input: the reversed window `[30, 20]`
yields the sentinel report. -/
theorem C8_reversed_window_witness :
    (20 : Int) < 30 ∧
      (window_filter 30 20 [exScored1] = [] ∧
        predict_for_ticker exToTs exVader exModel exWordIndex [exDateRow]
          exTicker 30 20 = Except.ok (0, 0, 1 / 2)) :=
  ⟨by decide,
    C8_reversed_window exToTs exVader exModel exWordIndex [exDateRow]
      exTicker 30 20 [exRecord1] [exScored1] (by decide) rfl rfl⟩

/-- C6: the pre-padding sequence built by the text encoder is exactly the
start-of-sequence index `1` followed by, for each whitespace token of the
title after removing only the literal characters `.`, `,` and `:`, the
vocabulary index of the lowercased token when present and the unknown-token
index `2` otherwise. -/
theorem C6_encoding_pre_padding (word_index : PyStr → Option Nat)
    (title : PyStr) :
    encode_title word_index (pySplitWs (pyRemoveChars title)) =
      1 :: (pySplitWs (pyRemoveChars title)).map
        (fun w =>
          match word_index (pyLower w) with
          | some idx => idx
          | none => 2) := by
  unfold encode_title
  rw [encode_title_go]
  rfl

set_option maxRecDepth 40000 in
/-- C7 counterexample: for the 100-token title `longTitle` (whose encoding
has 101 elements) the encoder's output is NOT the first 100 elements of the
encoding — keras truncates with its default `truncating="pre"`, removing
elements from the front, so the claimed post-truncation (removing from the
end) is false. -/
theorem C7_counterexample :
    prepare_news_title exWordIndex longTitle ≠
      some ((encode_title exWordIndex
        (pySplitWs (pyRemoveChars longTitle))).take 100) := by
  decide

/-- C7 amended: for every vocabulary containing the `"<PAD>"` sentinel, the
text encoder's output has length exactly 100; a shorter encoding is padded
on the right with the pad index, and an encoding longer than 100 is
truncated to its LAST 100 elements (keras default `truncating="pre"`:
elements are removed from the front, not the end). -/
theorem C7_amended_length_and_truncation (word_index : PyStr → Option Nat)
    (title : PyStr) (padv : Nat)
    (hpad : word_index padKey = some padv) :
    ∃ out, prepare_news_title word_index title = some out ∧
      out.length = 100 ∧
      ((encode_title word_index (pySplitWs (pyRemoveChars title))).length ≤ 100 →
        out = encode_title word_index (pySplitWs (pyRemoveChars title)) ++
          List.replicate
            (100 - (encode_title word_index
              (pySplitWs (pyRemoveChars title))).length) padv) ∧
      (100 < (encode_title word_index (pySplitWs (pyRemoveChars title))).length →
        List.IsSuffix out
          (encode_title word_index (pySplitWs (pyRemoveChars title)))) := by
  refine ⟨pad_sequences padv 100
    (encode_title word_index (pySplitWs (pyRemoveChars title))), ?_, ?_, ?_, ?_⟩
  · simp [prepare_news_title, hpad]
  · unfold pad_sequences
    split
    · rename_i h
      rw [List.length_drop]
      omega
    · rename_i h
      rw [List.length_append, List.length_replicate]
      omega
  · intro hle
    unfold pad_sequences
    split
    · rename_i h
      have h100 : (encode_title word_index
          (pySplitWs (pyRemoveChars title))).length = 100 := le_antisymm hle h
      simp [h100]
    · rfl
  · intro hgt
    unfold pad_sequences
    rw [if_pos (le_of_lt hgt)]
    exact List.drop_suffix _ _

/-- Witness for C7 (amended) at a concrete input: the fixture vocabulary
holds `"<PAD>"` at index 0 and the short title pads on the right. -/
theorem C7_amended_witness :
    exWordIndex padKey = some 0 ∧
      (∃ out, prepare_news_title exWordIndex "Hi there.".toList = some out ∧
        out.length = 100 ∧
        ((encode_title exWordIndex
            (pySplitWs (pyRemoveChars "Hi there.".toList))).length ≤ 100 →
          out = encode_title exWordIndex
              (pySplitWs (pyRemoveChars "Hi there.".toList)) ++
            List.replicate
              (100 - (encode_title exWordIndex
                (pySplitWs (pyRemoveChars "Hi there.".toList))).length) 0) ∧
        (100 < (encode_title exWordIndex
            (pySplitWs (pyRemoveChars "Hi there.".toList))).length →
          List.IsSuffix out
            (encode_title exWordIndex
              (pySplitWs (pyRemoveChars "Hi there.".toList))))) :=
  ⟨by decide,
    C7_amended_length_and_truncation exWordIndex "Hi there.".toList 0
      (by decide)⟩

/-- C4: a listing whose first row is time-only (its timestamp cell splits
to exactly one token, so no date has been established yet) makes the row
parser fail with an exception — `UnboundLocalError` from reading the never
assigned `date` variable, or `AttributeError` if the row also lacks its
anchor — and produce no headline records. -/
theorem C4_time_only_first_row (row : FinvizRow) (rest : List FinvizRow)
    (ticker : PyStr) (h : timeOnly row = true) :
    ∃ e, parse_data (row :: rest) ticker = Except.error e := by
  cases ha : row.anchorText with
  | none => exact ⟨PyError.attributeError, by simp [parse_data, parse_go, ha]⟩
  | some title =>
    unfold timeOnly at h
    cases htd : row.tdText with
    | none =>
      simp only [htd] at h
      exact Bool.noConfusion h
    | some td =>
      simp only [htd] at h
      cases hsp : pySplitOn ' ' td with
      | nil => simp [hsp] at h
      | cons d1 r1 =>
        cases r1 with
        | nil =>
          exact ⟨PyError.unboundLocalError,
            by simp [parse_data, parse_go, ha, htd, hsp]⟩
        | cons tm r2 => simp [hsp] at h

/-- Witness for C4 at a concrete input: a listing starting with the
time-only fixture row fails and yields no records. -/
theorem C4_time_only_first_row_witness :
    timeOnly exTimeRow = true ∧
      ∃ e, parse_data [exTimeRow, exDateRow] exTicker = Except.error e :=
  ⟨by decide, C4_time_only_first_row exTimeRow [exDateRow] exTicker (by decide)⟩

/-- C5 counterexample: for the concrete listing `[exBadRow, exDateRow]`
(first row lacks a title anchor, second row is well-formed) the parser does
NOT skip the malformed row and produce the record of the well-formed one —
it raises `AttributeError` and aborts the whole parse with no records. -/
theorem C5_counterexample :
    parse_data [exBadRow, exDateRow] exTicker =
        Except.error PyError.attributeError ∧
      parse_data [exBadRow, exDateRow] exTicker ≠ Except.ok [exRecord1] := by
  exact ⟨rfl, by decide⟩

/-- Generalisation of the amended C5 over the carried date: a malformed row
anywhere in the listing makes the whole parse raise. -/
theorem parse_go_malformed (ticker : PyStr) (rows : List FinvizRow) :
    ∀ (d0 : Option PyStr) (r : FinvizRow), r ∈ rows →
      wellFormedRow r = false →
      ∃ e, parse_go ticker d0 rows = Except.error e := by
  induction rows with
  | nil =>
    intro d0 r hr _
    exact absurd hr (List.not_mem_nil r)
  | cons row rest ih =>
    intro d0 r hr hwf
    rcases List.mem_cons.mp hr with heq | hmem
    · subst heq
      cases ha : r.anchorText with
      | none => exact ⟨PyError.attributeError, by simp [parse_go, ha]⟩
      | some title =>
        cases htd : r.tdText with
        | none => exact ⟨PyError.attributeError, by simp [parse_go, ha, htd]⟩
        | some td => simp [wellFormedRow, ha, htd] at hwf
    · cases ha : row.anchorText with
      | none => exact ⟨PyError.attributeError, by simp [parse_go, ha]⟩
      | some title =>
        cases htd : row.tdText with
        | none => exact ⟨PyError.attributeError, by simp [parse_go, ha, htd]⟩
        | some td =>
          cases hsp : pySplitOn ' ' td with
          | nil => exact ⟨PyError.indexError, by simp [parse_go, ha, htd, hsp]⟩
          | cons d1 r1 =>
            cases r1 with
            | nil =>
              cases d0 with
              | none =>
                exact ⟨PyError.unboundLocalError,
                  by simp [parse_go, ha, htd, hsp]⟩
              | some d =>
                obtain ⟨e, he⟩ := ih (some d) r hmem hwf
                exact ⟨e, by simp [parse_go, ha, htd, hsp, he, Except.map]⟩
            | cons tm r2 =>
              obtain ⟨e, he⟩ := ih (some d1) r hmem hwf
              exact ⟨e, by simp [parse_go, ha, htd, hsp, he, Except.map]⟩

/-- C5 amended: a listing containing a row that lacks a title anchor or
lacks a timestamp cell is never parsed into records: the row is not
skipped; the parse raises (`AttributeError` at that row, or an earlier
exception) and aborts as a whole, producing no records for the remaining
well-formed rows. -/
theorem C5_amended_malformed_row_aborts (rows : List FinvizRow)
    (ticker : PyStr) (r : FinvizRow) (hr : r ∈ rows)
    (hwf : wellFormedRow r = false) :
    ∃ e, parse_data rows ticker = Except.error e :=
  parse_go_malformed ticker rows none r hr hwf

/-- Witness for the amended C5 at a concrete input: a malformed row between
two well-formed rows aborts the parse. -/
theorem C5_amended_witness :
    exBadRow ∈ [exDateRow, exBadRow, exTimeRow] ∧
      wellFormedRow exBadRow = false ∧
      ∃ e, parse_data [exDateRow, exBadRow, exTimeRow] exTicker =
        Except.error e :=
  ⟨by decide, by decide,
    C5_amended_malformed_row_aborts [exDateRow, exBadRow, exTimeRow] exTicker
      exBadRow (by decide) (by decide)⟩

/-- Unrolling of the `lastDateFrom` scan by one row. -/
theorem lastDateFrom_cons (d0 : Option PyStr) (row : FinvizRow)
    (l : List FinvizRow) :
    lastDateFrom d0 (row :: l) =
      lastDateFrom
        (match suppliedDate row with
         | some d => some d
         | none => d0) l := rfl

/-- Date carry-over invariant of the row-parsing loop, generalised over the
carried date `d0`: if every row is well-formed and every time-only row sees
an established date (either from `d0` or from an earlier row of the
batch), the loop succeeds, produces one record per row, and gives each
time-only row's record the date of the nearest preceding date supplier. -/
theorem parse_go_dates (rows : List FinvizRow) (ticker : PyStr) :
    ∀ (d0 : Option PyStr),
      (∀ r ∈ rows, wellFormedRow r = true) →
      (∀ i (hi : i < rows.length), timeOnly rows[i] = true →
          (lastDateFrom d0 (rows.take i)).isSome = true) →
      ∃ recs, parse_go ticker d0 rows = Except.ok recs ∧
        recs.length = rows.length ∧
        ∀ i (hi : i < rows.length) (hri : i < recs.length),
          timeOnly rows[i] = true →
          lastDateFrom d0 (rows.take i) = some (recs[i].date) := by
  induction rows with
  | nil =>
    intro d0 _ _
    exact ⟨[], rfl, rfl, fun i hi => absurd hi (Nat.not_lt_zero i)⟩
  | cons row rest ih =>
    intro d0 hwf hdates
    have hwfr := hwf row (List.mem_cons_self row rest)
    obtain ⟨title, ha⟩ : ∃ t, row.anchorText = some t := by
      cases h : row.anchorText with
      | none => rw [wellFormedRow, h] at hwfr; simp at hwfr
      | some t => exact ⟨t, rfl⟩
    obtain ⟨td, htd⟩ : ∃ t, row.tdText = some t := by
      cases h : row.tdText with
      | none => rw [wellFormedRow, h] at hwfr; simp at hwfr
      | some t => exact ⟨t, rfl⟩
    have hwrest : ∀ r ∈ rest, wellFormedRow r = true :=
      fun r hr => hwf r (List.mem_cons_of_mem row hr)
    cases hsp : pySplitOn ' ' td with
    | nil => exact absurd hsp (pySplitOn_ne_nil ' ' td)
    | cons d1 r1 =>
      cases r1 with
      | nil =>
        have hto : timeOnly row = true := by
          simp [timeOnly, htd, hsp]
        have hsup : suppliedDate row = none := by
          simp [suppliedDate, htd, hsp]
        have h0 := hdates 0 (by simp) (by simpa using hto)
        rw [List.take_zero] at h0
        obtain ⟨d, hd⟩ := Option.isSome_iff_exists.mp h0
        subst hd
        have hdrest : ∀ i (hi : i < rest.length), timeOnly rest[i] = true →
            (lastDateFrom (some d) (rest.take i)).isSome = true := by
          intro i hi hti
          have h1 := hdates (i + 1) (by simpa using Nat.succ_lt_succ hi)
            (by simpa using hti)
          simpa [List.take_succ_cons, lastDateFrom_cons, hsup] using h1
        obtain ⟨recs, hpg, hlen, hdate⟩ := ih (some d) hwrest hdrest
        refine ⟨⟨ticker, d, d1, title⟩ :: recs, ?_, by simp [hlen], ?_⟩
        · simp [parse_go, ha, htd, hsp, hpg, Except.map]
        · intro i hi hri hto2
          cases i with
          | zero => rfl
          | succ j =>
            have hj : j < rest.length := by simpa using hi
            have hjr : j < recs.length := by
              rw [hlen]
              exact hj
            have hres := hdate j hj hjr (by simpa using hto2)
            simpa [List.take_succ_cons, lastDateFrom_cons, hsup,
              List.getElem_cons_succ] using hres
      | cons tm r2 =>
        have hsup : suppliedDate row = some d1 := by
          simp [suppliedDate, htd, hsp]
        have hto_f : timeOnly row = false := by
          simp [timeOnly, htd, hsp]
        have hdrest : ∀ i (hi : i < rest.length), timeOnly rest[i] = true →
            (lastDateFrom (some d1) (rest.take i)).isSome = true := by
          intro i hi hti
          have h1 := hdates (i + 1) (by simpa using Nat.succ_lt_succ hi)
            (by simpa using hti)
          simpa [List.take_succ_cons, lastDateFrom_cons, hsup] using h1
        obtain ⟨recs, hpg, hlen, hdate⟩ := ih (some d1) hwrest hdrest
        refine ⟨⟨ticker, d1, tm, title⟩ :: recs, ?_, by simp [hlen], ?_⟩
        · simp [parse_go, ha, htd, hsp, hpg, Except.map]
        · intro i hi hri hto2
          cases i with
          | zero =>
            rw [List.getElem_cons_zero] at hto2
            rw [hto_f] at hto2
            exact Bool.noConfusion hto2
          | succ j =>
            have hj : j < rest.length := by simpa using hi
            have hjr : j < recs.length := by
              rw [hlen]
              exact hj
            have hres := hdate j hj hjr (by simpa using hto2)
            simpa [List.take_succ_cons, lastDateFrom_cons, hsup,
              List.getElem_cons_succ] using hres

/-- C3: for every well-formed listing in which every time-only row
(timestamp cell splitting to exactly one token) is preceded by at least one
row that supplied a date, the parser succeeds with one record per row and
assigns to each time-only row's record the date token of the nearest
preceding date-supplying row. -/
theorem C3_date_carry_over (rows : List FinvizRow) (ticker : PyStr)
    (hwf : ∀ r ∈ rows, wellFormedRow r = true)
    (hdates : ∀ i (hi : i < rows.length), timeOnly rows[i] = true →
        (lastSuppliedDate (rows.take i)).isSome = true) :
    ∃ recs, parse_data rows ticker = Except.ok recs ∧
      recs.length = rows.length ∧
      ∀ i (hi : i < rows.length) (hri : i < recs.length),
        timeOnly rows[i] = true →
        lastSuppliedDate (rows.take i) = some (recs[i].date) :=
  parse_go_dates rows ticker none hwf hdates

/-- Witness for C3 at the spec's worked scenario: a date row followed by a
time-only row; the time-only record inherits the date `01/15/24`. -/
theorem C3_date_carry_over_witness :
    (∀ r ∈ [exDateRow, exTimeRow], wellFormedRow r = true) ∧
      (∀ i (hi : i < [exDateRow, exTimeRow].length),
        timeOnly [exDateRow, exTimeRow][i] = true →
          (lastSuppliedDate ([exDateRow, exTimeRow].take i)).isSome = true) ∧
      ∃ recs, parse_data [exDateRow, exTimeRow] exTicker = Except.ok recs ∧
        recs.length = [exDateRow, exTimeRow].length ∧
        ∀ i (hi : i < [exDateRow, exTimeRow].length)
          (hri : i < recs.length),
          timeOnly [exDateRow, exTimeRow][i] = true →
          lastSuppliedDate ([exDateRow, exTimeRow].take i) =
            some (recs[i].date) :=
  ⟨by decide, by decide,
    C3_date_carry_over [exDateRow, exTimeRow] exTicker (by decide)
      (by decide)⟩

/-- The two variants' row-parsing loops are textually identical and compute
the same function. -/
theorem vparse_go_eq (ticker : PyStr) (rows : List FinvizRow) :
    ∀ d0, vparse_go ticker d0 rows = parse_go ticker d0 rows := by
  induction rows with
  | nil => intro d0; rfl
  | cons row rest ih =>
    intro d0
    obtain ⟨a, t⟩ := row
    cases a with
    | none => rfl
    | some title =>
      cases t with
      | none => rfl
      | some td =>
        cases hsp : pySplitOn ' ' td with
        | nil => simp [vparse_go, parse_go, hsp]
        | cons d1 r1 =>
          cases r1 with
          | nil =>
            cases d0 with
            | none => simp [vparse_go, parse_go, hsp]
            | some d => simp [vparse_go, parse_go, hsp, ih]
          | cons tm r2 => simp [vparse_go, parse_go, hsp, ih]

/-- The two variants' `parse_data` functions agree on every input. -/
theorem vparse_data_eq (rows : List FinvizRow) (ticker : PyStr) :
    vparse_data rows ticker = parse_data rows ticker :=
  vparse_go_eq ticker rows none

/-- With the `"<PAD>"` sentinel present, the dual-model column construction
never raises and scores each record pointwise. -/
theorem score_rows_ok (toTs : PyStr → PyStr → Int) (vader : PyStr → Rat)
    (modelP : List Nat → Rat) (word_index : PyStr → Option Nat) (padv : Nat)
    (hpad : word_index padKey = some padv) (parsed : List Record) :
    score_rows toTs vader modelP word_index parsed =
      Except.ok (parsed.map (scoredOf toTs vader modelP word_index padv)) := by
  induction parsed with
  | nil => rfl
  | cons r rs ih =>
    simp [score_rows, score_row, prepare_news_title, hpad, ih, scoredOf]

/-- The lexicon-only scoring is the dual-model scoring with the model
column forgotten. -/
theorem vscore_rows_map (toTs : PyStr → PyStr → Int) (vader : PyStr → Rat)
    (modelP : List Nat → Rat) (word_index : PyStr → Option Nat) (padv : Nat)
    (parsed : List Record) :
    vscore_rows toTs vader parsed =
      (parsed.map (scoredOf toTs vader modelP word_index padv)).map
        dropModel := by
  rw [List.map_map]
  rfl

/-- The two variants' window filters commute with forgetting the model
column (the mask only reads the timestamp, which `dropModel` preserves). -/
theorem vwindow_filter_map (start_date end_date : Int) (l : List Scored) :
    vwindow_filter start_date end_date (l.map dropModel) =
      (window_filter start_date end_date l).map dropModel := by
  rw [vwindow_filter, window_filter, List.filter_map]
  rfl

/-- The lexicon-only aggregation is the first two components of the
dual-model aggregation. -/
theorem vaggregate_drop (start_date end_date : Int) (l : List Scored) :
    vaggregate start_date end_date (l.map dropModel) =
      ((aggregate start_date end_date l).1,
        (aggregate start_date end_date l).2.1) := by
  unfold vaggregate aggregate
  rw [vwindow_filter_map]
  simp only [List.length_map, List.map_map]
  have hcomp : (VScored.compound ∘ dropModel) = Scored.compound := rfl
  by_cases h : (window_filter start_date end_date l).length = 0
  · simp [h]
  · simp [h, hcomp]

/-- C9: for every fetched listing and every window, provided the shared
vocabulary holds its `"<PAD>"` sentinel, the lexicon-only variant computes
exactly the dual-model variant's result with the model mean dropped: the
same parse (including the same exception on malformed listings), the same
`newsCount` and the same vader mean. -/
theorem C9_variant_equivalence (toTs : PyStr → PyStr → Int)
    (vader : PyStr → Rat) (modelP : List Nat → Rat)
    (word_index : PyStr → Option Nat) (padv : Nat)
    (news_table : List FinvizRow) (ticker : PyStr)
    (start_date end_date : Int)
    (hpad : word_index padKey = some padv) :
    vpredict_for_ticker toTs vader news_table ticker start_date end_date =
      (predict_for_ticker toTs vader modelP word_index news_table ticker
        start_date end_date).map (fun r => (r.1, r.2.1)) := by
  unfold vpredict_for_ticker predict_for_ticker
  rw [vparse_data_eq]
  cases hp : parse_data news_table ticker with
  | error e => rfl
  | ok parsed =>
    dsimp only
    rw [score_rows_ok toTs vader modelP word_index padv hpad parsed]
    dsimp only [Except.map]
    rw [vscore_rows_map toTs vader modelP word_index padv parsed,
      vaggregate_drop]

/-- Witness for C9 at a concrete input: both fixture rows fall inside the
window `[10, 20]`, so both variants aggregate two retained headlines. -/
theorem C9_variant_equivalence_witness :
    exWordIndex padKey = some 0 ∧
      vpredict_for_ticker exToTs exVader [exDateRow, exTimeRow] exTicker
          10 20 =
        (predict_for_ticker exToTs exVader exModel exWordIndex
          [exDateRow, exTimeRow] exTicker 10 20).map (fun r => (r.1, r.2.1)) :=
  ⟨by decide,
    C9_variant_equivalence exToTs exVader exModel exWordIndex 0
      [exDateRow, exTimeRow] exTicker 10 20 (by decide)⟩

/-- C10: every successful run of `predict_automatically` produces a report
whose `createdAt` equals its `timeframe.endTime` verbatim (both are the one
formatted 'now' string, built once and reused), with `timeframe.startTime`
the formatted 'now minus hoursTillNow hours' (3600 seconds per hour). -/
theorem C10_report_times (fmt : Int → PyStr) (now : Int)
    (toTs : PyStr → PyStr → Int) (vader : PyStr → Rat)
    (modelP : List Nat → Rat) (word_index : PyStr → Option Nat)
    (news_table : List FinvizRow) (ticker : PyStr) (hours_till_now : Int)
    (rep : Report)
    (h : predict_automatically fmt now toTs vader modelP word_index
        news_table ticker hours_till_now = Except.ok rep) :
    rep.createdAt = rep.endTime ∧ rep.endTime = fmt now ∧
      rep.startTime = fmt (now - hours_till_now * 3600) := by
  simp only [predict_automatically] at h
  cases hp : predict_for_ticker toTs vader modelP word_index news_table
      ticker (now - hours_till_now * 3600) now with
  | error e =>
    rw [hp] at h
    exact Except.noConfusion h
  | ok res =>
    obtain ⟨rows, v, m⟩ := res
    rw [hp] at h
    dsimp only at h
    injection h with h2
    subst h2
    exact ⟨rfl, rfl, rfl⟩

/-- Witness for C10 at a concrete input: an empty news table at `now = 0`
with a one-hour lookback produces the sentinel report, whose `createdAt`
and `endTime` coincide. -/
theorem C10_report_times_witness :
    predict_automatically exFmt 0 exToTs exVader exModel exWordIndex []
        exTicker 1 = Except.ok exReport0 ∧
      (exReport0.createdAt = exReport0.endTime ∧
        exReport0.endTime = exFmt 0 ∧
        exReport0.startTime = exFmt (0 - 1 * 3600)) :=
  ⟨rfl,
    C10_report_times exFmt 0 exToTs exVader exModel exWordIndex [] exTicker 1
      exReport0 rfl⟩
